import Mathlib

/-!
# Verification of the geo-monitor task-execution pipeline

Shallow embedding of `backend/app/services/calculator.py` and
`backend/app/services/executor.py`. Python floats/Decimals are modelled as
exact rationals (`Rat`), Python `round(x, 2)` as round-half-to-even on the
scaled rational, machine timestamps as whole seconds (`Nat`), and JSON
values as the inductive `JVal`. Fallible Python operations (subscripts,
arithmetic on untyped JSON fields) are modelled with `Except String`.
-/

/-- Python `round` to an integer: round half to even (banker's rounding). -/
def pyRoundHalfEven (q : Rat) : Int :=
  let f : Int := ⌊q⌋
  let r : Rat := q - (f : Rat)
  if r < 1/2 then f
  else if 1/2 < r then f + 1
  else if f % 2 = 0 then f else f + 1

/-- Python `round(x, 2)`: round to two decimal places. -/
def pyRound2 (q : Rat) : Rat :=
  (pyRoundHalfEven (q * 100) : Rat) / 100

/-- Whitespace word-splitting over a character list: skip whitespace runs,
collect maximal non-whitespace runs (`acc` holds the current word
reversed). -/
def wordsAux : List Char → List Char → List String
  | [], acc => if acc.isEmpty then [] else [String.mk acc.reverse]
  | c :: cs, acc =>
      if c.isWhitespace then
        (if acc.isEmpty then wordsAux cs []
         else String.mk acc.reverse :: wordsAux cs [])
      else wordsAux cs (c :: acc)

/-- Python `str.split()` with no argument: split on whitespace runs,
dropping empty pieces. -/
def pySplit (s : String) : List String := wordsAux s.toList []

/-- Python `str.lower()`, character-wise (ASCII case folding, as
`Char.toLower` provides). -/
def pyLower (s : String) : String := String.mk (s.toList.map Char.toLower)

/-- Python substring test `needle in hay` on strings. -/
def pyInStr (needle hay : String) : Bool :=
  decide (needle.toList <:+: hay.toList)

-- ===========================================================================
-- JSON values (results of Python `json.loads`)
-- ===========================================================================

/-- A parsed JSON value as Python represents it. `jbool` is kept separate
from `jint` because Python `bool` is a subclass of `int`: `isinstance`
checks and arithmetic must see both. -/
inductive JVal where
  | jnull
  | jbool (b : Bool)
  | jint (n : Int)
  | jfloat (q : Rat)
  | jstr (s : String)
  | jarr (xs : List JVal)
  | jobj (kvs : List (String × JVal))

/-- Python truthiness of a JSON value. -/
def JVal.truthy : JVal → Bool
  | .jnull => false
  | .jbool b => b
  | .jint n => n ≠ 0
  | .jfloat q => q ≠ 0
  | .jstr s => s ≠ ""
  | .jarr xs => !xs.isEmpty
  | .jobj kvs => !kvs.isEmpty

/-- Lookup of a key in a JSON object's field list (Python `dict` access;
keys are unique in a Python dict, we take the first occurrence). -/
def jlookup (kvs : List (String × JVal)) (k : String) : Option JVal :=
  (kvs.find? (fun p => p.1 == k)).map (fun p => p.2)

/-- Python `d.get(key)` on an object, `None` when absent. -/
def JVal.get? (j : JVal) (k : String) : Option JVal :=
  match j with
  | .jobj kvs => jlookup kvs k
  | _ => none

/-- Python `isinstance(v, int)`: true for ints and bools. -/
def JVal.isInt : JVal → Bool
  | .jint _ => true
  | .jbool _ => true
  | _ => false

/-- The numeric value of a Python int-like value (`True == 1`, `False == 0`). -/
def JVal.intVal : JVal → Int
  | .jint n => n
  | .jbool b => if b then 1 else 0
  | _ => 0

/-- A Python numeric operand (int, bool or float) as an exact rational;
`TypeError` for anything else. -/
def JVal.toNum : JVal → Except String Rat
  | .jint n => .ok (n : Rat)
  | .jbool b => .ok (if b then 1 else 0)
  | .jfloat q => .ok q
  | _ => .error "TypeError: unsupported operand type"

-- ===========================================================================
-- calculator.py: calculate_sov
-- ===========================================================================

/-- Python truthiness of an optional string argument (`if target_brand:`):
`None` and the empty string are falsy. -/
def truthyStrOpt : Option String → Bool
  | none => false
  | some s => s ≠ ""

/-- `calculate_sov` from `calculator.py`. With a truthy target brand:
`round((target_mentions / len(brand_mentions)) * 100, 2)` where mentions are
compared lowercased; otherwise `round((unique_brands / max(total_models, 1))
* 100, 2)` where `unique_brands = len(set(brand_mentions))`. Empty mention
list short-circuits to `0.0`. -/
def calculate_sov (brand_mentions : List String) (total_models : Int)
    (target_brand : Option String) : Rat :=
  if brand_mentions.isEmpty then 0
  else if truthyStrOpt target_brand then
    let t := pyLower (target_brand.getD "")
    let target_mentions := (brand_mentions.filter (fun b => pyLower b == t)).length
    pyRound2 (((target_mentions : Rat) / (brand_mentions.length : Rat)) * 100)
  else
    let unique_brands := brand_mentions.dedup.length
    pyRound2 (((unique_brands : Rat) / (max total_models 1 : Rat)) * 100)

-- ===========================================================================
-- calculator.py: get_grade
-- ===========================================================================

/-- `get_grade` from `calculator.py`: fixed cutoff chain. -/
def get_grade (score : Rat) : String :=
  if score ≥ 90 then "A+"
  else if score ≥ 85 then "A"
  else if score ≥ 80 then "B+"
  else if score ≥ 75 then "B"
  else if score ≥ 70 then "C+"
  else if score ≥ 65 then "C"
  else if score ≥ 50 then "D"
  else "F"

/-- Rank of a letter grade on the scale F < D < C < C+ < B < B+ < A < A+,
used to state monotonicity of `get_grade`. -/
def gradeRank : String → Nat
  | "F" => 0
  | "D" => 1
  | "C" => 2
  | "C+" => 3
  | "B" => 4
  | "B+" => 5
  | "A" => 6
  | "A+" => 7
  | _ => 0

-- ===========================================================================
-- calculator.py: check_positioning_hit
-- ===========================================================================

/-- The lowercased window text around token `i`: Python
`" ".join(tokens[max(0, i - window_size) : min(len(tokens), i + window_size + 1)]).lower()`.
(`Nat` subtraction realises the `max(0, ...)`.) -/
def windowText (tokens : List String) (i window_size : Nat) : String :=
  let start := i - window_size
  let stop := min tokens.length (i + window_size + 1)
  pyLower (String.intercalate " " ((tokens.drop start).take (stop - start)))

/-- `check_positioning_hit` from `calculator.py`: scan tokens; at a token
containing any brand token (lowercased substring test), test whether any
lowercased positioning keyword occurs in the lowercased joined window. -/
def check_positioning_hit (response brand : String)
    (positioning_keywords : List String) (window_size : Nat := 50) : Bool :=
  let tokens := pySplit response
  let brand_tokens := pySplit (pyLower brand)
  (List.range tokens.length).any (fun i =>
    let token_lower := pyLower (tokens.getD i "")
    if brand_tokens.any (fun bt => pyInStr bt token_lower) then
      positioning_keywords.any (fun pk =>
        pyInStr (pyLower pk) (windowText tokens i window_size))
    else false)

/-- The property the spec states for `check_positioning_hit`: some token
position matches the brand (substring, case-insensitive) and some
positioning keyword occurs in the token window around it. -/
def PositioningHitSpec (response brand : String)
    (positioning_keywords : List String) (window_size : Nat) : Prop :=
  ∃ i < (pySplit response).length,
    (∃ bt ∈ pySplit (pyLower brand),
        pyInStr bt (pyLower ((pySplit response).getD i "")) = true) ∧
    ∃ pk ∈ positioning_keywords,
        pyInStr (pyLower pk) (windowText (pySplit response) i window_size) = true

instance (response brand : String) (pks : List String) (w : Nat) :
    Decidable (PositioningHitSpec response brand pks w) := by
  unfold PositioningHitSpec
  infer_instance

-- ===========================================================================
-- executor.py: ModelExecutor._validate_response
-- ===========================================================================

/-- Membership of a value in Python's list `["Positive", "Neutral", "Negative"]`
(`==` between a non-string and a string is false). -/
def sentimentAllowed : JVal → Bool
  | .jstr s => s == "Positive" || s == "Neutral" || s == "Negative"
  | _ => false

/-- One iteration of the brand loop in `_validate_response`: the entry must
be a dict with a string `name`; `sentiment`, when truthy, must be one of the
three allowed strings; `accuracy_score`, when truthy, must be a Python int
(bools included) in `[1, 10]`. -/
def validate_brand (brand : JVal) : Bool :=
  match brand with
  | .jobj kvs =>
      (match jlookup kvs "name" with
       | some (.jstr _) => true
       | _ => false) &&
      (match jlookup kvs "sentiment" with
       | some v => !v.truthy || sentimentAllowed v
       | none => true) &&
      (match jlookup kvs "accuracy_score" with
       | some v => !v.truthy || (v.isInt && decide (1 ≤ v.intVal) && decide (v.intVal ≤ 10))
       | none => true)
  | _ => false

/-- `ModelExecutor._validate_response`: top level must be a dict, its
`brands` value (defaulting to `[]`) must be a list, and every entry must
pass `validate_brand`. -/
def validate_response (response : JVal) : Bool :=
  match response with
  | .jobj kvs =>
      match (jlookup kvs "brands").getD (.jarr []) with
      | .jarr bs => bs.all validate_brand
      | _ => false
  | _ => false

-- ===========================================================================
-- executor.py: CostTracker
-- ===========================================================================

/-- `CostTracker` state: spend ceilings, the running day total, and the day
(as a day ordinal) of the last reset. Decimal arithmetic is exact, so `Rat`
models it faithfully. -/
structure CostTracker where
  max_cost_per_request : Rat
  max_daily_cost : Rat
  daily_cost : Rat
  last_reset : Nat
deriving DecidableEq, Repr

/-- `CostTracker.check_cost_limit`, with `today` the current UTC day
ordinal. Note the method mutates: it performs the lazy daily reset before
checking the two ceilings. -/
def CostTracker.check_cost_limit (ct : CostTracker) (today : Nat)
    (estimated_cost : Rat) : Bool × CostTracker :=
  let ct := if ct.last_reset < today then
    { ct with daily_cost := 0, last_reset := today } else ct
  if ct.max_cost_per_request < estimated_cost then (false, ct)
  else if ct.max_daily_cost < ct.daily_cost + estimated_cost then (false, ct)
  else (true, ct)

/-- `CostTracker.add_cost`. -/
def CostTracker.add_cost (ct : CostTracker) (actual_cost : Rat) : CostTracker :=
  { ct with daily_cost := ct.daily_cost + actual_cost }

-- ===========================================================================
-- executor.py: CircuitBreaker
-- ===========================================================================

/-- `CircuitBreaker` state; `state` is one of the strings `"closed"`,
`"open"`, `"half_open"` exactly as in the source; timestamps are whole
seconds with the clock assumed monotone (`now` is never before a recorded
failure time). -/
structure CircuitBreaker where
  failure_threshold : Nat
  recovery_timeout : Nat
  failure_count : Nat
  last_failure_time : Option Nat
  state : String
deriving DecidableEq, Repr

/-- `CircuitBreaker.can_execute`. The source compares
`(utcnow() - last_failure_time).seconds` — the `seconds` COMPONENT of the
timedelta, i.e. the elapsed seconds modulo 86400 — against
`recovery_timeout`; when the test passes in the `"open"` state it mutates
`state` to `"half_open"`. -/
def CircuitBreaker.can_execute (cb : CircuitBreaker) (now : Nat) : Bool × CircuitBreaker :=
  if cb.state = "closed" then (true, cb)
  else if cb.state = "open" then
    match cb.last_failure_time with
    | some t =>
        if cb.recovery_timeout ≤ (now - t) % 86400 then
          (true, { cb with state := "half_open" })
        else (false, cb)
    | none => (false, cb)
  else if cb.state = "half_open" then (true, cb)
  else (false, cb)

/-- `CircuitBreaker.record_success`. -/
def CircuitBreaker.record_success (cb : CircuitBreaker) : CircuitBreaker :=
  { cb with failure_count := 0, state := "closed" }

/-- `CircuitBreaker.record_failure` at time `now`. -/
def CircuitBreaker.record_failure (cb : CircuitBreaker) (now : Nat) : CircuitBreaker :=
  let cb := { cb with failure_count := cb.failure_count + 1,
                      last_failure_time := some now }
  if cb.failure_threshold ≤ cb.failure_count then { cb with state := "open" }
  else cb

-- ===========================================================================
-- executor.py: prompt, pricing, cost computation
-- ===========================================================================

/-- `ModelExecutor._build_prompt`: the fixed brand-auditor prompt with the
keyword interpolated (transcribed verbatim from the source f-string). -/
def build_prompt (keyword : String) : String :=
  "You are a Brand Auditor analyzing AI model responses about brands and products.\n\nUser Query: \"" ++ keyword ++ "\"\n\nPlease provide a comprehensive analysis of brands mentioned in response to this query.\n\nOutput Requirements:\n1. List ALL brands/companies mentioned in the response\n2. For each brand, provide:\n   - Sentiment analysis (Positive/Neutral/Negative)\n   - Whether a URL/link is provided\n   - Positioning keywords present (enterprise, reliable, fast, secure, etc.)\n   - Accuracy score (1-10) based on factual correctness\n\nIMPORTANT: Respond ONLY with valid JSON in the exact format below:\n\n\x7b\n  \"brands\": [\n    \x7b\n      \"name\": \"Brand Name\",\n      \"sentiment\": \"Positive\",\n      \"has_link\": true,\n      \"positioning_keywords_hit\": [\"enterprise\", \"reliable\"],\n      \"accuracy_score\": 8,\n      \"context\": \"Brief context about how the brand was mentioned\"\n    \x7d\n  ],\n  \"total_brands_mentioned\": 1,\n  \"query_category\": \"software\",\n  \"response_quality\": \"high\"\n\x7d\n\nDo not include any text outside the JSON response."

/-- The static per-model price table of `_calculate_cost` (USD per 1M input
tokens, USD per 1M output tokens); float literals read as exact decimals. -/
def pricingTable : List (String × Rat × Rat) :=
  [("openai/gpt-4o", 5, 15),
   ("openai/gpt-4o-mini", 15/100, 60/100),
   ("anthropic/claude-3-5-sonnet", 3, 15),
   ("anthropic/claude-3-opus", 15, 75),
   ("google/gemini-1.5-pro", 7, 21)]

/-- `pricing.get(model_id, default)` lookup with the default tier (5, 15). -/
def model_pricing (model_id : String) : Rat × Rat :=
  (((pricingTable.find? (fun p => p.1 == model_id)).map (fun p => p.2)).getD (5, 15))

/-- The arithmetic core of `_calculate_cost` once both token counts are
numeric. -/
def calculate_costNum (model_id : String) (input_tokens output_tokens : Rat) : Rat :=
  input_tokens / 1000000 * (model_pricing model_id).1 +
    output_tokens / 1000000 * (model_pricing model_id).2

/-- Python `usage.get(key, default)`: `AttributeError` when the receiver is
not a dict. -/
def pyGetD (j : JVal) (k : String) (d : JVal) : Except String JVal :=
  match j with
  | .jobj kvs => .ok ((jlookup kvs k).getD d)
  | _ => .error "AttributeError: no method get"

/-- `ModelExecutor._calculate_cost`: read both token counts off the usage
dict (defaulting to 0) and price them; raises (as the source would) when
`usage` is not a dict or a count is not numeric. -/
def calculate_cost (model_id : String) (usage : JVal) : Except String Rat := do
  let it ← pyGetD usage "prompt_tokens" (.jint 0)
  let ot ← pyGetD usage "completion_tokens" (.jint 0)
  let itn ← it.toNum
  let otn ← ot.toNum
  pure (calculate_costNum model_id itn otn)

/-- `ModelExecutor._estimate_cost`: `len(prompt) // 4` input tokens and a
fixed 500 output tokens, priced like `_calculate_cost`. -/
def estimate_cost (model_id : String) (prompt : String) : Rat :=
  calculate_costNum model_id ((prompt.length / 4 : Nat) : Rat) 500

-- ===========================================================================
-- executor.py: ModelExecutor.execute
-- ===========================================================================

/-- Python subscript `j[k]` on a JSON value: `KeyError` when the key is
missing, `TypeError`-style failures otherwise (error strings abbreviated). -/
def pySubscript (j : JVal) (k : String) : Except String JVal :=
  match j with
  | .jobj kvs =>
      match jlookup kvs k with
      | some v => .ok v
      | none => .error ("KeyError: " ++ k)
  | _ => .error "TypeError: value is not subscriptable by a string"

/-- Python subscript `j[i]` with an integer index on a JSON value. -/
def pyIndex (j : JVal) (i : Nat) : Except String JVal :=
  match j with
  | .jarr xs =>
      match xs.get? i with
      | some v => .ok v
      | none => .error "IndexError: list index out of range"
  | _ => .error "TypeError: value is not subscriptable by an integer"

/-- `response["choices"][0]["message"]["content"]`. -/
def extractContent (response : JVal) : Except String JVal := do
  let choices ← pySubscript response "choices"
  let c0 ← pyIndex choices 0
  let msg ← pySubscript c0 "message"
  pySubscript msg "content"

/-- The `ModelOutput` record as `execute` builds it (fields that the source
leaves unset before the DB flush are `none`). `token_usage` keeps the raw
JSON value the source assigns. -/
structure ModelOutput where
  run_id : String
  keyword : String
  model_id : String
  status : String
  error_message : Option String
  raw_response : Option JVal
  token_usage : Option JVal
  cost_usd : Option Rat

/-- The executor's `session_stats` dict. -/
structure SessionStats where
  total_requests : Nat
  successful_requests : Nat
  failed_requests : Nat
  total_cost : Rat
  total_tokens : Rat
deriving DecidableEq, Repr

/-- The mutable state an `execute` call touches: the executor's shared
cost tracker, circuit breaker and session stats. -/
structure ExecState where
  cost_tracker : CostTracker
  circuit_breaker : CircuitBreaker
  stats : SessionStats
deriving DecidableEq

/-- Result of a modelled `execute` call: the returned output, the final
shared state, the number of provider HTTP calls made and the number of
backoff sleeps performed. -/
structure LoopResult where
  output : ModelOutput
  state : ExecState
  api_calls : Nat
  sleeps : Nat

/-- One iteration of the retry loop's `try` body, given the provider
outcome oracle `api` (exception text or response JSON per attempt) and the
abstract `json.loads` behaviour `parse`. Returns the (possibly partially)
updated output and state plus `some e` when the body raised `e`. Mirrors
the source order: HTTP call, content extraction, `usage` read, JSON parse,
shape validation, cost settlement, output completion, stats update,
`record_success`. -/
def attemptStep (parse : String → Option JVal) (api : Nat → Except String JVal)
    (model_id : String) (attempt : Nat) (output : ModelOutput) (st : ExecState) :
    ModelOutput × ExecState × Option String :=
  match api attempt with
  | .error e => (output, st, some e)
  | .ok response =>
    match extractContent response with
    | .error e => (output, st, some e)
    | .ok content =>
      match pyGetD response "usage" (.jobj []) with
      | .error e => (output, st, some e)
      | .ok usage =>
        match (if content.truthy then
                 match content with
                 | .jstr s =>
                     match parse s with
                     | some p => Except.ok p
                     | none => Except.error "Invalid JSON response"
                 | _ => Except.error "TypeError: the JSON object must be str"
               else Except.ok (JVal.jobj [])) with
        | .error e => (output, st, some e)
        | .ok parsed =>
          if !validate_response parsed then (output, st, some "Invalid response format")
          else
            match calculate_cost model_id usage with
            | .error e => (output, st, some e)
            | .ok actual_cost =>
              let st := { st with cost_tracker := st.cost_tracker.add_cost actual_cost }
              let output := { output with raw_response := some parsed }
              match pyGetD usage "total_tokens" (.jint 0) with
              | .error e => (output, st, some e)
              | .ok tokenJ =>
                let output := { output with token_usage := some tokenJ,
                                            cost_usd := some actual_cost,
                                            status := "completed" }
                let st := { st with stats :=
                  { st.stats with
                      successful_requests := st.stats.successful_requests + 1,
                      total_cost := st.stats.total_cost + actual_cost } }
                match tokenJ.toNum with
                | .error e => (output, st, some e)
                | .ok t =>
                  let st := { st with stats :=
                    { st.stats with total_tokens := st.stats.total_tokens + t } }
                  let st := { st with circuit_breaker := st.circuit_breaker.record_success }
                  (output, st, none)

/-- The retry loop `for attempt in range(max_retries)` from attempt index
`attempt` on: on success break; on an exception `record_failure`, then
either finalize a failed output (last attempt) or sleep and continue. -/
def retryLoop (parse : String → Option JVal) (api : Nat → Except String JVal)
    (model_id : String) (now max_retries attempt : Nat)
    (output : ModelOutput) (st : ExecState) : LoopResult :=
  if _h : attempt < max_retries then
    match attemptStep parse api model_id attempt output st with
    | (output1, st1, none) => ⟨output1, st1, 1, 0⟩
    | (output1, st1, some e) =>
      let st2 := { st1 with circuit_breaker := st1.circuit_breaker.record_failure now }
      if attempt = max_retries - 1 then
        ⟨{ output1 with status := "failed", error_message := some e },
         { st2 with stats :=
            { st2.stats with failed_requests := st2.stats.failed_requests + 1 } },
         1, 0⟩
      else
        let r := retryLoop parse api model_id now max_retries (attempt + 1) output1 st2
        ⟨r.output, r.state, r.api_calls + 1, r.sleeps + 1⟩
  else ⟨output, st, 0, 0⟩
termination_by max_retries - attempt
decreasing_by omega

/-- `ModelExecutor.execute` for one (keyword, model) pair: build the
prompt, pre-check the cost ceilings, check the circuit breaker, then run
the bounded retry loop. `today`/`now` are the (fixed) UTC day ordinal and
second timestamp of the call, `parse` the `json.loads` behaviour and `api`
the provider outcome per attempt. -/
def ModelExecutor.execute (max_retries : Nat) (parse : String → Option JVal)
    (api : Nat → Except String JVal) (today now : Nat)
    (keyword model_id run_id : String) (st : ExecState) : LoopResult :=
  let prompt := build_prompt keyword
  let output : ModelOutput :=
    { run_id := run_id, keyword := keyword, model_id := model_id,
      status := "pending", error_message := none, raw_response := none,
      token_usage := none, cost_usd := none }
  let estimated_cost := estimate_cost model_id prompt
  let checked := st.cost_tracker.check_cost_limit today estimated_cost
  let st := { st with cost_tracker := checked.2 }
  if !checked.1 then
    ⟨{ output with status := "failed", error_message := some "Cost limit exceeded" },
     st, 0, 0⟩
  else
    let allowed := st.circuit_breaker.can_execute now
    let st := { st with circuit_breaker := allowed.2 }
    if !allowed.1 then
      ⟨{ output with status := "failed",
                     error_message := some "Circuit breaker open - too many failures" },
       st, 0, 0⟩
    else
      let st := { st with stats :=
        { st.stats with total_requests := st.stats.total_requests + 1 } }
      retryLoop parse api model_id now max_retries 0 output st

-- ===========================================================================
-- executor.py: execute_task_run (the keyword x model matrix)
-- ===========================================================================

/-- Final `TaskRun` facts produced by `execute_task_run`, together with the
observable effects the claims talk about: the number of `ModelOutput` rows
written and the number of `ModelExecutor.execute` invocations. -/
structure RunSummary where
  status : String
  error_message : Option String
  output_rows : Nat
  executor_calls : Nat
  successful_executions : Nat
  failed_executions : Nat
deriving DecidableEq, Repr

/-- The keyword x model matrix in iteration order (outer loop keywords,
inner loop models). -/
def pairList (keywords : List String) (models : List (String × Int)) :
    List (String × String) :=
  keywords.bind (fun k => models.map (fun m => (k, m.1)))

/-- The per-pair loop body of `execute_task_run`, accumulating
(successful_executions, failed_executions, ModelOutput rows). `res k m`
tells whether `ModelExecutor.execute` returned a completed output for the
pair. A completed pair adds its one output row and increments the success
counter. For a failed pair the source adds the failed output row, then
raises `TypeError` at `total_tokens += output.token_usage` (the ORM object
leaves `token_usage` as `None` until flushed), so the surrounding
`except` branch increments the failure counter and adds a second failed
output row. Either way each pair bumps exactly one counter once. -/
def runPairsLoop (res : String → String → Bool) (acc : Nat × Nat × Nat) :
    List (String × String) → Nat × Nat × Nat
  | [] => acc
  | p :: ps =>
      let acc := if res p.1 p.2 then (acc.1 + 1, acc.2.1, acc.2.2 + 1)
        else (acc.1, acc.2.1 + 1, acc.2.2 + 2)
      runPairsLoop res acc ps

/-- `execute_task_run` from the point where the task's keywords and models
have been loaded (task found and active): short-circuit to a failed run
when either list is empty; otherwise walk the matrix and derive the final
status from the two counters exactly as the source does. (MetricsSnapshot
creation, guarded by its own `try`, affects neither status nor the
`ModelOutput` rows and is not modelled.) -/
def execute_task_run (keywords : List String) (models : List (String × Int))
    (res : String → String → Bool) : RunSummary :=
  if keywords.isEmpty || models.isEmpty then
    { status := "failed", error_message := some "No keywords or models configured",
      output_rows := 0, executor_calls := 0,
      successful_executions := 0, failed_executions := 0 }
  else
    let pairs := pairList keywords models
    let acc := runPairsLoop res (0, 0, 0) pairs
    let s := acc.1
    let f := acc.2.1
    let rows := acc.2.2
    if 0 < s then
      if f = 0 then
        { status := "completed", error_message := none, output_rows := rows,
          executor_calls := pairs.length,
          successful_executions := s, failed_executions := f }
      else
        { status := "partial",
          error_message := some (toString f ++ " out of " ++ toString (s + f) ++
            " executions failed"),
          output_rows := rows, executor_calls := pairs.length,
          successful_executions := s, failed_executions := f }
    else
      { status := "failed", error_message := some "All executions failed",
        output_rows := rows, executor_calls := pairs.length,
        successful_executions := s, failed_executions := f }

-- ===========================================================================
-- Theorems
-- ===========================================================================

/-- A default-configured breaker (threshold 5, timeout 60) after five
`record_failure` calls at t = 0. -/
def trippedBreaker : CircuitBreaker :=
  (List.range 5).foldl (fun c _ => CircuitBreaker.record_failure c 0)
    { failure_threshold := 5, recovery_timeout := 60, failure_count := 0,
      last_failure_time := none, state := "closed" }

/-- C2 (code bug): the spec says that after `failure_threshold` consecutive
failures `can_execute` stays false until `recovery_timeout` seconds have
elapsed and then permits a probe. The code compares the timedelta's
`seconds` component (elapsed mod 86400) with the timeout, so with the
default threshold 5 / timeout 60 and all failures at t = 0 the breaker
correctly rejects at t = 59 and probes at t = 60, but at t = 86400 —
a full day later, far beyond the timeout — it still rejects. -/
theorem circuit_breaker_seconds_wrap_eval :
    trippedBreaker.state = "open" ∧
    (CircuitBreaker.can_execute trippedBreaker 59).1 = false ∧
    (CircuitBreaker.can_execute trippedBreaker 60).1 = true ∧
    trippedBreaker.recovery_timeout ≤ 86400 - 0 ∧
    (CircuitBreaker.can_execute trippedBreaker 86400).1 = false := by
  decide

/-- C3 (code bug): `calculate_sov`'s docstring and the spec promise a value
in [0, 100], but in the no-target-brand branch three distinct mentions with
`total_models = 1` yield 300. The claim's empty-list part does hold. -/
theorem calculate_sov_range_violation_eval :
    calculate_sov ["a", "b", "c"] 1 none = 300 ∧
    ¬ calculate_sov ["a", "b", "c"] 1 none ≤ 100 ∧
    (∀ (tm : Int) (tb : Option String), calculate_sov [] tm tb = 0) := by
  have hd : (["a", "b", "c"] : List String).dedup.length = 3 := by rfl
  have h300 : calculate_sov ["a", "b", "c"] 1 none = 300 := by
    unfold calculate_sov pyRound2 pyRoundHalfEven
    norm_num [truthyStrOpt, hd]
  refine ⟨h300, by rw [h300]; norm_num, fun tm tb => by simp [calculate_sov]⟩

/-- A tracker with 5 spent on day 0, used to exhibit the day-rollover
mutation inside `check_cost_limit`. -/
def rolloverTracker : CostTracker :=
  { max_cost_per_request := 1, max_daily_cost := 100, daily_cost := 5,
    last_reset := 0 }

/-- C4 counterexample: `check_cost_limit` is not a pure read — when the
UTC day has advanced past `last_reset` it zeroes the day total and moves
`last_reset`, even while returning. Here a tracker with 5 spent on day 0,
queried on day 1 with a zero estimate, comes back changed. -/
theorem check_cost_limit_mutates_counterexample :
    (rolloverTracker.check_cost_limit 1 0).2 ≠ rolloverTracker := by
  intro h
  have hl : (rolloverTracker.check_cost_limit 1 0).2.last_reset = 1 := by
    simp only [CostTracker.check_cost_limit, rolloverTracker]
    split_ifs <;> first | rfl | omega
  rw [h] at hl
  simp [rolloverTracker] at hl

/-- C4 amended: `check_cost_limit` mutates the tracker only by the lazy
daily reset (day total zeroed and `last_reset` advanced when `today` is
later); the ceilings are untouched; and it returns false exactly when the
estimate alone exceeds the per-call ceiling or the post-reset day total
plus the estimate exceeds the daily ceiling. -/
theorem check_cost_limit_amended :
    ∀ (ct : CostTracker) (today : Nat) (est : Rat),
      ((ct.check_cost_limit today est).2.max_cost_per_request
          = ct.max_cost_per_request) ∧
      ((ct.check_cost_limit today est).2.max_daily_cost = ct.max_daily_cost) ∧
      ((ct.check_cost_limit today est).2.last_reset = max ct.last_reset today) ∧
      ((ct.check_cost_limit today est).2.daily_cost
          = if ct.last_reset < today then 0 else ct.daily_cost) ∧
      ((ct.check_cost_limit today est).1 = false ↔
        (ct.max_cost_per_request < est ∨
          ct.max_daily_cost
            < (if ct.last_reset < today then (0 : Rat) else ct.daily_cost) + est)) := by
  intro ct today est
  refine ⟨?_, ?_, ?_, ?_, ?_⟩ <;>
    simp only [CostTracker.check_cost_limit] <;>
    split_ifs <;>
    first
      | rfl
      | (simp_all <;> omega)
      | simp_all

/-- C5 counterexample: `can_execute` is not side-effect free — on an open
breaker whose recovery test passes it flips the state to `"half_open"`. -/
theorem can_execute_mutates_counterexample :
    (({ failure_threshold := 5, recovery_timeout := 60, failure_count := 5,
        last_failure_time := some 0, state := "open" : CircuitBreaker
      }).can_execute 60).2 ≠
      { failure_threshold := 5, recovery_timeout := 60, failure_count := 5,
        last_failure_time := some 0, state := "open" : CircuitBreaker } := by
  decide

/-- C5 amended: `can_execute` never changes the thresholds, the failure
count or the last-failure time, and leaves `state` unchanged except for the
single open-to-half_open transition (which reports true). -/
theorem can_execute_amended_frame :
    ∀ (cb : CircuitBreaker) (now : Nat),
      ((cb.can_execute now).2.failure_threshold = cb.failure_threshold) ∧
      ((cb.can_execute now).2.recovery_timeout = cb.recovery_timeout) ∧
      ((cb.can_execute now).2.failure_count = cb.failure_count) ∧
      ((cb.can_execute now).2.last_failure_time = cb.last_failure_time) ∧
      ((cb.can_execute now).2.state = cb.state ∨
        (cb.state = "open" ∧ (cb.can_execute now).2.state = "half_open" ∧
          (cb.can_execute now).1 = true)) := by
  intro cb now
  unfold CircuitBreaker.can_execute
  split_ifs with h1 h2 h3 <;> try simp_all
  rcases h : cb.last_failure_time with _ | t <;> simp_all
  split_ifs with h4 <;> simp_all

set_option maxHeartbeats 2000000 in
/-- C9: `get_grade` is monotone non-decreasing (measured by `gradeRank` on
the grade ladder F < D < C < C+ < B < B+ < A < A+), takes the stated values
at the cutoff boundaries, and sends every negative score to F and every
score above 100 to A+. -/
theorem get_grade_monotone_cutoffs :
    (∀ s t : Rat, s ≤ t → gradeRank (get_grade s) ≤ gradeRank (get_grade t)) ∧
    get_grade 90 = "A+" ∧ get_grade 89 = "A" ∧ get_grade 65 = "C" ∧
    get_grade 64 = "D" ∧ get_grade 50 = "D" ∧ get_grade 49 = "F" ∧
    (∀ s : Rat, s < 0 → get_grade s = "F") ∧
    (∀ s : Rat, 100 < s → get_grade s = "A+") := by
  refine ⟨?_, by norm_num [get_grade], by norm_num [get_grade],
    by norm_num [get_grade], by norm_num [get_grade], by norm_num [get_grade],
    by norm_num [get_grade], ?_, ?_⟩
  · intro s t hst
    unfold get_grade
    split_ifs <;> first | decide | linarith
  · intro s hs
    unfold get_grade
    split_ifs <;> first | rfl | linarith
  · intro s hs
    unfold get_grade
    split_ifs <;> first | rfl | linarith

/-- C9 witness: the monotonicity and limit cases of
`get_grade_monotone_cutoffs` applied at concrete scores. -/
theorem get_grade_monotone_cutoffs_witness :
    gradeRank (get_grade 40) ≤ gradeRank (get_grade 95) ∧
    get_grade (-3) = "F" ∧ get_grade 250 = "A+" :=
  ⟨get_grade_monotone_cutoffs.1 40 95 (by norm_num),
   get_grade_monotone_cutoffs.2.2.2.2.2.2.2.1 (-3) (by norm_num),
   get_grade_monotone_cutoffs.2.2.2.2.2.2.2.2 250 (by norm_num)⟩

/-- C7: `check_positioning_hit` returns true iff some positioning keyword
occurs (lowercased substring) in the token window around some token that
contains a brand token (lowercased substring); and it returns false for an
empty response text and false for an empty keyword list. -/
theorem check_positioning_hit_spec :
    (∀ (response brand : String) (pks : List String) (w : Nat),
        check_positioning_hit response brand pks w = true ↔
          PositioningHitSpec response brand pks w) ∧
    (∀ (brand : String) (pks : List String) (w : Nat),
        check_positioning_hit "" brand pks w = false) ∧
    (∀ (response brand : String) (w : Nat),
        check_positioning_hit response brand [] w = false) := by
  refine ⟨?_, ?_, ?_⟩
  · intro response brand pks w
    unfold check_positioning_hit PositioningHitSpec
    simp only [List.any_eq_true, List.mem_range]
    constructor
    · rintro ⟨i, hi, hbody⟩
      by_cases hb : ∃ bt ∈ pySplit (pyLower brand),
          pyInStr bt (pyLower ((pySplit response).getD i "")) = true
      · rw [if_pos hb] at hbody
        exact ⟨i, hi, hb, List.any_eq_true.mp hbody⟩
      · rw [if_neg hb] at hbody
        exact absurd hbody (by simp)
    · rintro ⟨i, hi, hbrand, hpk⟩
      exact ⟨i, hi, by rw [if_pos hbrand]; exact List.any_eq_true.mpr hpk⟩
  · intro brand pks w
    have h : pySplit "" = [] := rfl
    simp [check_positioning_hit, h]
  · intro response brand w
    unfold check_positioning_hit
    rw [List.any_eq_false]
    intro i hi
    simp

/-- C7 witness: `check_positioning_hit_spec` instantiated — "reliable" sits
inside the window around the brand token "Acme", and an empty keyword list
yields false. -/
theorem check_positioning_hit_spec_witness :
    check_positioning_hit "Acme is reliable" "acme" ["reliable"] 50 = true ∧
    check_positioning_hit "Acme is reliable" "acme" [] 50 = false :=
  ⟨(check_positioning_hit_spec.1 "Acme is reliable" "acme" ["reliable"] 50).mpr
      (by decide),
   check_positioning_hit_spec.2.2 "Acme is reliable" "acme" 50⟩

/-- Per-brand property amended to match the code: a dict with a string
`name`; a present `sentiment` must be allowed only when truthy; a present
`accuracy_score` must be a Python int in [1, 10] only when truthy. -/
def BrandEntryAmended (b : JVal) : Prop :=
  ∃ bkvs, b = .jobj bkvs ∧
    (∃ s, jlookup bkvs "name" = some (.jstr s)) ∧
    (∀ v, jlookup bkvs "sentiment" = some v → v.truthy = true →
        sentimentAllowed v = true) ∧
    (∀ v, jlookup bkvs "accuracy_score" = some v → v.truthy = true →
        v.isInt = true ∧ 1 ≤ v.intVal ∧ v.intVal ≤ 10)

/-- The amended acceptance condition for `_validate_response`: a dict whose
`brands` value (default `[]`) is a list all of whose entries satisfy
`BrandEntryAmended`. -/
def ValidResponseAmended (j : JVal) : Prop :=
  ∃ kvs, j = .jobj kvs ∧
    ∃ bs, (jlookup kvs "brands").getD (.jarr []) = .jarr bs ∧
      ∀ b ∈ bs, BrandEntryAmended b

/-- The claim's per-brand condition, written from the spec's words: a
string `name`; `sentiment` IF PRESENT is one of the three strings;
`accuracy_score` IF PRESENT is an integer in [1, 10] — with no truthiness
exemption. -/
def claim_brand_ok (b : JVal) : Bool :=
  match b with
  | .jobj kvs =>
      (match jlookup kvs "name" with
       | some (.jstr _) => true
       | _ => false) &&
      (match jlookup kvs "sentiment" with
       | some v => sentimentAllowed v
       | none => true) &&
      (match jlookup kvs "accuracy_score" with
       | some v => v.isInt && decide (1 ≤ v.intVal) && decide (v.intVal ≤ 10)
       | none => true)
  | _ => false

/-- The claim's acceptance condition for a parsed JSON object, from the
spec's words (same outer shape as the code, claim-side brand check). -/
def claim_shape_ok (j : JVal) : Bool :=
  match j with
  | .jobj kvs =>
      match (jlookup kvs "brands").getD (.jarr []) with
      | .jarr bs => bs.all claim_brand_ok
      | _ => false
  | _ => false

/-- A response whose single brand entry carries `accuracy_score: 0`. -/
def zeroAccuracyResponse : JVal :=
  .jobj [("brands", .jarr [.jobj [("name", .jstr "X"),
    ("accuracy_score", .jint 0)]])]

/-- Brand-level equivalence between the code's `validate_brand` and the
truthiness-amended per-entry property. -/
theorem validate_brand_iff (b : JVal) :
    validate_brand b = true ↔ BrandEntryAmended b := by
  cases b with
  | jobj kvs =>
      simp only [validate_brand, BrandEntryAmended, Bool.and_eq_true,
        JVal.jobj.injEq, exists_eq_left']
      constructor
      · rintro ⟨⟨hname, hsent⟩, hacc⟩
        refine ⟨?_, ?_, ?_⟩
        · rcases h : jlookup kvs "name" with _ | v
          · rw [h] at hname; cases hname
          · cases v <;> rw [h] at hname <;> simp_all
        · intro v hv ht
          rw [hv] at hsent
          rcases Bool.or_eq_true .. |>.mp hsent with h | h
          · rw [Bool.not_eq_true'] at h; rw [h] at ht; cases ht
          · exact h
        · intro v hv ht
          rw [hv] at hacc
          rcases Bool.or_eq_true .. |>.mp hacc with h | h
          · rw [Bool.not_eq_true'] at h; rw [h] at ht; cases ht
          · simp only [Bool.and_eq_true, decide_eq_true_eq] at h
            exact ⟨h.1.1, h.1.2, h.2⟩
      · rintro ⟨⟨s, hname⟩, hsent, hacc⟩
        refine ⟨⟨?_, ?_⟩, ?_⟩
        · rw [hname]
        · rcases h : jlookup kvs "sentiment" with _ | v
          · rfl
          · rcases ht : v.truthy with _ | _
            · simp [ht]
            · simp [ht, hsent v h ht]
        · rcases h : jlookup kvs "accuracy_score" with _ | v
          · rfl
          · rcases ht : v.truthy with _ | _
            · simp [ht]
            · obtain ⟨h1, h2, h3⟩ := hacc v h ht
              simp [ht, h1, h2, h3]
  | _ => simp [validate_brand, BrandEntryAmended]

/-- C6 counterexample: the code accepts a brand entry whose
`accuracy_score` is present and equal to 0 — a falsy value skips the range
check — while the claim ("accuracy_score if present is an integer in
[1,10]") demands rejection. -/
theorem validate_response_truthiness_counterexample :
    validate_response zeroAccuracyResponse = true ∧
    claim_shape_ok zeroAccuracyResponse = false := by
  decide

/-- C6 amended: `_validate_response` accepts a parsed JSON value iff it is
a dict whose `brands` value (default `[]`) is a list and every entry is a
dict with a string `name` whose `sentiment` and `accuracy_score` fields,
WHEN PRESENT AND TRUTHY, are respectively one of
Positive/Neutral/Negative and a Python int in [1, 10]; falsy values
(0, "", null, false, empty containers) escape both checks. -/
theorem validate_response_amended (j : JVal) :
    validate_response j = true ↔ ValidResponseAmended j := by
  cases j with
  | jobj kvs =>
      simp only [validate_response, ValidResponseAmended, JVal.jobj.injEq,
        exists_eq_left']
      rcases h : (jlookup kvs "brands").getD (.jarr []) with
          _ | _ | _ | _ | _ | bs | _ <;>
        simp_all [List.all_eq_true, validate_brand_iff]
  | _ => simp [validate_response, ValidResponseAmended]

/-- C6 witness: `validate_response_amended` instantiated at a concrete
accepted response. -/
theorem validate_response_amended_witness :
    ValidResponseAmended (.jobj [("brands", .jarr [.jobj
      [("name", .jstr "X"), ("sentiment", .jstr "Positive"),
       ("accuracy_score", .jint 7)]])]) :=
  (validate_response_amended _).mp (by decide)

/-- Counter bookkeeping of the per-pair loop: starting from `(a, b, c)` it
adds the success count, the failure count and the written rows (one per
success, two per failure) for the processed pairs. -/
theorem runPairsLoop_eq (res : String → String → Bool)
    (ps : List (String × String)) : ∀ a b c,
    runPairsLoop res (a, b, c) ps =
      (a + ps.countP (fun p => res p.1 p.2),
       b + (ps.length - ps.countP (fun p => res p.1 p.2)),
       c + ps.countP (fun p => res p.1 p.2) +
         2 * (ps.length - ps.countP (fun p => res p.1 p.2))) := by
  induction ps with
  | nil => intro a b c; simp [runPairsLoop]
  | cons p ps ih =>
      intro a b c
      have hle := List.countP_le_length (fun p => res p.1 p.2) (l := ps)
      by_cases hres : res p.1 p.2 <;>
        simp [runPairsLoop, hres, ih, List.countP_cons] <;>
        constructor <;> omega

/-- The matrix size is the product of the keyword and model counts. -/
theorem pairList_length (keywords : List String) (models : List (String × Int)) :
    (pairList keywords models).length = keywords.length * models.length := by
  induction keywords with
  | nil => simp [pairList]
  | cons k ks ih =>
      simp only [pairList, List.bind] at ih ⊢
      simp [ih, Nat.succ_mul]
      omega

/-- C1: the final status of `execute_task_run` over the keyword x model
matrix is `completed` iff the configuration is non-empty and every pair
succeeded, `partial` iff some pair succeeded and some failed (with the
error message giving failed vs total counts, which sum to the matrix
size), and `failed` iff the configuration is empty or every pair failed;
with empty configuration no `ModelOutput` row is written and no executor
call is made. -/
theorem execute_task_run_status (keywords : List String)
    (models : List (String × Int)) (res : String → String → Bool) :
    (((execute_task_run keywords models res).status = "completed") ↔
      (¬(keywords = [] ∨ models = []) ∧
        ∀ p ∈ pairList keywords models, res p.1 p.2 = true)) ∧
    (((execute_task_run keywords models res).status = "partial") ↔
      ((∃ p ∈ pairList keywords models, res p.1 p.2 = true) ∧
       (∃ p ∈ pairList keywords models, res p.1 p.2 = false))) ∧
    ((execute_task_run keywords models res).status = "partial" →
      ((execute_task_run keywords models res).error_message =
        some (toString (execute_task_run keywords models res).failed_executions
          ++ " out of " ++
          toString ((execute_task_run keywords models res).successful_executions
            + (execute_task_run keywords models res).failed_executions) ++
          " executions failed") ∧
      (execute_task_run keywords models res).successful_executions
          + (execute_task_run keywords models res).failed_executions
        = (pairList keywords models).length)) ∧
    (((execute_task_run keywords models res).status = "failed") ↔
      (keywords = [] ∨ models = [] ∨
        ∀ p ∈ pairList keywords models, res p.1 p.2 = false)) ∧
    ((keywords = [] ∨ models = []) →
      (execute_task_run keywords models res).output_rows = 0 ∧
      (execute_task_run keywords models res).executor_calls = 0) := by
  by_cases hempty : keywords.isEmpty || models.isEmpty
  · have hkm : keywords = [] ∨ models = [] := by
      rcases Bool.or_eq_true .. |>.mp hempty with h | h
      · exact Or.inl (List.isEmpty_iff.mp h)
      · exact Or.inr (List.isEmpty_iff.mp h)
    have hpairs : pairList keywords models = [] := by
      rcases hkm with h | h <;> subst h <;> simp [pairList]
    unfold execute_task_run
    rw [if_pos hempty]
    refine ⟨?_, ?_, ?_, ?_, ?_⟩
    · simp [hkm]
    · simp [hpairs]
    · intro h; exact absurd h (by simp)
    · constructor
      · intro _
        rcases hkm with h | h
        · exact Or.inl h
        · exact Or.inr (Or.inl h)
      · intro _; rfl
    · intro _; exact ⟨rfl, rfl⟩
  · have hempty' : (keywords.isEmpty || models.isEmpty) = false := by
      rw [Bool.not_eq_true] at hempty; exact hempty
    have hk : ¬keywords.isEmpty := by
      intro h; rw [h] at hempty'; simp at hempty'
    have hm : ¬models.isEmpty := by
      intro h; rw [h] at hempty'; simp at hempty'
    have hkm : ¬(keywords = [] ∨ models = []) := by
      rintro (h | h) <;> subst h <;> simp at hk hm
    have hlen : (pairList keywords models).length
        = keywords.length * models.length := pairList_length keywords models
    have hpos : 0 < (pairList keywords models).length := by
      rw [hlen]
      have h1 : 0 < keywords.length := List.length_pos.mpr (by
        intro h; subst h; simp at hk)
      have h2 : 0 < models.length := List.length_pos.mpr (by
        intro h; subst h; simp at hm)
      positivity
    have hle : (pairList keywords models).countP (fun p => res p.1 p.2)
        ≤ (pairList keywords models).length := List.countP_le_length _
    set pairs := pairList keywords models with hpairsdef
    set cnt := pairs.countP (fun p => res p.1 p.2) with hcnt
    have hall : (∀ p ∈ pairs, res p.1 p.2 = true) ↔ cnt = pairs.length := by
      rw [hcnt]; exact (List.countP_eq_length).symm
    have hex : (∃ p ∈ pairs, res p.1 p.2 = true) ↔ 0 < cnt := by
      rw [hcnt]; exact (List.countP_pos_iff).symm
    have hexf : (∃ p ∈ pairs, res p.1 p.2 = false) ↔ cnt < pairs.length := by
      constructor
      · rintro ⟨p, hp, hfalse⟩
        rcases Nat.lt_or_ge cnt pairs.length with h | h
        · exact h
        · exfalso
          have := hall.mpr (Nat.le_antisymm hle h)
          rw [this p hp] at hfalse
          cases hfalse
      · intro h
        by_contra hno
        push_neg at hno
        have hforall : ∀ p ∈ pairs, res p.1 p.2 = true := by
          intro p hp
          cases hb : res p.1 p.2
          · exact absurd hb (hno p hp)
          · rfl
        rw [hall.mp hforall] at h
        exact absurd h (Nat.lt_irrefl _)
    have hloop : runPairsLoop res (0, 0, 0) (pairList keywords models)
        = (cnt, pairs.length - cnt, cnt + 2 * (pairs.length - cnt)) := by
      rw [runPairsLoop_eq]
      simp [hcnt, hpairsdef]
    simp only [execute_task_run, hempty', Bool.false_eq_true, if_false, hloop]
    by_cases h0 : 0 < cnt
    · by_cases hf : pairs.length - cnt = 0
      · rw [if_pos h0, if_pos hf]
        refine ⟨?_, ?_, ?_, ?_, ?_⟩
        · constructor
          · intro _; exact ⟨hkm, hall.mpr (by omega)⟩
          · intro _; rfl
        · constructor
          · intro h; exact absurd h (by simp)
          · rintro ⟨_, hx⟩
            have := hexf.mp hx
            omega
        · intro h; exact absurd h (by simp)
        · constructor
          · intro h; exact absurd h (by simp)
          · rintro (h | h | h)
            · exact absurd (Or.inl h) hkm
            · exact absurd (Or.inr h) hkm
            · exfalso
              have h1 : cnt = 0 := by
                rw [hcnt, List.countP_eq_zero]
                intro p hp
                rw [h p hp]
                simp
              omega
        · intro h; exact absurd h hkm
      · rw [if_pos h0, if_neg hf]
        refine ⟨?_, ?_, ?_, ?_, ?_⟩
        · constructor
          · intro h; exact absurd h (by simp)
          · rintro ⟨_, hx⟩
            have := hall.mp hx
            omega
        · constructor
          · intro _; exact ⟨hex.mpr h0, hexf.mpr (by omega)⟩
          · intro _; rfl
        · intro _
          refine ⟨rfl, ?_⟩
          show cnt + (pairs.length - cnt) = pairs.length
          omega
        · constructor
          · intro h; exact absurd h (by simp)
          · rintro (h | h | h)
            · exact absurd (Or.inl h) hkm
            · exact absurd (Or.inr h) hkm
            · exfalso
              have h1 : cnt = 0 := by
                rw [hcnt, List.countP_eq_zero]
                intro p hp
                rw [h p hp]
                simp
              omega
        · intro h; exact absurd h hkm
    · rw [if_neg h0]
      refine ⟨?_, ?_, ?_, ?_, ?_⟩
      · constructor
        · intro h; exact absurd h (by simp)
        · rintro ⟨_, hx⟩
          have := hall.mp hx
          omega
      · constructor
        · intro h; exact absurd h (by simp)
        · rintro ⟨hx, _⟩
          exact absurd (hex.mp hx) h0
      · intro h; exact absurd h (by simp)
      · constructor
        · intro _
          refine Or.inr (Or.inr ?_)
          intro p hp
          cases hb : res p.1 p.2
          · rfl
          · exact absurd (hex.mp ⟨p, hp, hb⟩) h0
        · intro _; rfl
      · intro h; exact absurd h hkm

/-- C1 witness: `execute_task_run_status` instantiated at one keyword and
two models where only the first model succeeds: a partial run whose
message counts 1 failed out of 2. -/
theorem execute_task_run_status_witness :
    ((execute_task_run ["k"] [("m1", 1), ("m2", 2)]
        (fun _ m => m == "m1")).status = "partial") ∧
    ((execute_task_run ["k"] [("m1", 1), ("m2", 2)]
        (fun _ m => m == "m1")).error_message =
      some (toString (execute_task_run ["k"] [("m1", 1), ("m2", 2)]
          (fun _ m => m == "m1")).failed_executions ++ " out of " ++
        toString ((execute_task_run ["k"] [("m1", 1), ("m2", 2)]
            (fun _ m => m == "m1")).successful_executions +
          (execute_task_run ["k"] [("m1", 1), ("m2", 2)]
            (fun _ m => m == "m1")).failed_executions) ++
        " executions failed")) := by
  have h := execute_task_run_status ["k"] [("m1", 1), ("m2", 2)]
    (fun _ m => m == "m1")
  have hp : (execute_task_run ["k"] [("m1", 1), ("m2", 2)]
      (fun _ m => m == "m1")).status = "partial" :=
    h.2.1.mpr ⟨by decide, by decide⟩
  exact ⟨hp, (h.2.2.1 hp).1⟩

/-- An attempt whose `try` body ran to the `break` (no exception) has set
the output status to `"completed"`. -/
theorem attemptStep_none_completed (parse : String → Option JVal)
    (api : Nat → Except String JVal) (model_id : String) (attempt : Nat)
    (output : ModelOutput) (st : ExecState) (o1 : ModelOutput)
    (s1 : ExecState)
    (h : attemptStep parse api model_id attempt output st = (o1, s1, none)) :
    o1.status = "completed" := by
  have key : (attemptStep parse api model_id attempt output st).2.2 = none →
      (attemptStep parse api model_id attempt output st).1.status = "completed" := by
    unfold attemptStep
    repeat' split
    all_goals intro hk
    all_goals first | rfl | simp at hk
  have h1 := key (by rw [h])
  rw [h] at h1
  exact h1

/-- The retry loop, entered below `max_retries`, always leaves the output
status `"completed"` or `"failed"` (fuel-indexed induction on the remaining
attempts). -/
theorem retryLoop_status (parse : String → Option JVal)
    (api : Nat → Except String JVal) (model_id : String) (now max_retries : Nat) :
    ∀ (fuel attempt : Nat) (output : ModelOutput) (st : ExecState),
      max_retries - attempt = fuel → attempt < max_retries →
      ((retryLoop parse api model_id now max_retries attempt output st).output.status
          = "completed" ∨
       (retryLoop parse api model_id now max_retries attempt output st).output.status
          = "failed") := by
  intro fuel
  induction fuel with
  | zero => intro attempt o s hf hlt; omega
  | succ n ih =>
      intro attempt o s hf hlt
      unfold retryLoop
      rw [dif_pos hlt]
      rcases hstep : attemptStep parse api model_id attempt o s with ⟨o1, s1, err⟩
      rcases err with _ | e
      · left
        simp only [hstep]
        exact attemptStep_none_completed parse api model_id attempt o s o1 s1 hstep
      · by_cases hlast : attempt = max_retries - 1
        · right
          simp only [hstep, if_pos hlast]
        · simp only [hstep, if_neg hlast]
          exact ih (attempt + 1) o1 _ (by omega) (by omega)

/-- C10: for any provider behaviour, JSON-parse behaviour, timestamps and
shared state, and any `max_retries ≥ 1`, `ModelExecutor.execute` returns
normally (the model function is total: every exception path of the source
is an explicit branch) with an output whose status is `"completed"` or
`"failed"` — never `"pending"`. -/
theorem execute_status_total :
    ∀ (max_retries : Nat) (parse : String → Option JVal)
      (api : Nat → Except String JVal) (today now : Nat)
      (keyword model_id run_id : String) (st : ExecState),
      1 ≤ max_retries →
      ((ModelExecutor.execute max_retries parse api today now keyword model_id
          run_id st).output.status = "completed" ∨
       (ModelExecutor.execute max_retries parse api today now keyword model_id
          run_id st).output.status = "failed") := by
  intro max_retries parse api today now keyword model_id run_id st hmr
  rcases hc : (st.cost_tracker.check_cost_limit today
      (estimate_cost model_id (build_prompt keyword))).1 with _ | _
  · simp [ModelExecutor.execute, hc]
  · rcases hb : (st.circuit_breaker.can_execute now).1 with _ | _
    · simp [ModelExecutor.execute, hc, hb]
    · simp only [ModelExecutor.execute, hc, hb, Bool.not_true, Bool.false_eq_true,
        if_false]
      exact retryLoop_status parse api model_id now max_retries
        (max_retries - 0) 0 _ _ rfl (by omega)

/-- A shared-state value whose cost tracker last reset on day 0 with 5
spent and a negative daily ceiling, so that on day 1 the pre-check both
performs its lazy reset and fails. -/
def dayRolloverState : ExecState where
  cost_tracker :=
    { max_cost_per_request := 1000
      max_daily_cost := -1
      daily_cost := 5
      last_reset := 0 }
  circuit_breaker :=
    { failure_threshold := 5
      recovery_timeout := 60
      failure_count := 0
      last_failure_time := none
      state := "closed" }
  stats :=
    { total_requests := 0
      successful_requests := 0
      failed_requests := 0
      total_cost := 0
      total_tokens := 0 }

/-- On day 1 the pre-check over `dayRolloverState` fails while resetting
`last_reset` to 1. -/
theorem dayRollover_check_false :
    (dayRolloverState.cost_tracker.check_cost_limit 1
      (estimate_cost "m" (build_prompt "k"))).1 = false ∧
    (dayRolloverState.cost_tracker.check_cost_limit 1
      (estimate_cost "m" (build_prompt "k"))).2.last_reset = 1 := by
  have hnn : 0 ≤ estimate_cost "m" (build_prompt "k") := by
    unfold estimate_cost calculate_costNum
    rw [show model_pricing "m" = ((5 : Rat), (15 : Rat)) from rfl]
    positivity
  constructor <;>
    simp only [CostTracker.check_cost_limit, dayRolloverState] <;>
    split_ifs with h1 h2 h3 <;>
    first | rfl | omega | (simp at h3; linarith)

/-- C8 amended: when the cost pre-check fails, `execute` returns a failed
output with the "Cost limit exceeded" message, makes no provider call,
performs no backoff sleep, and leaves the circuit breaker and session
stats untouched; the cost tracker ends exactly as the pre-check itself
left it (unchanged except for the lazy daily reset the pre-check may
perform). -/
theorem execute_cost_precheck_amended :
    ∀ (max_retries : Nat) (parse : String → Option JVal)
      (api : Nat → Except String JVal) (today now : Nat)
      (keyword model_id run_id : String) (st : ExecState),
      (st.cost_tracker.check_cost_limit today
        (estimate_cost model_id (build_prompt keyword))).1 = false →
      ((ModelExecutor.execute max_retries parse api today now keyword model_id
          run_id st).output.status = "failed" ∧
       (ModelExecutor.execute max_retries parse api today now keyword model_id
          run_id st).output.error_message = some "Cost limit exceeded" ∧
       (ModelExecutor.execute max_retries parse api today now keyword model_id
          run_id st).api_calls = 0 ∧
       (ModelExecutor.execute max_retries parse api today now keyword model_id
          run_id st).sleeps = 0 ∧
       (ModelExecutor.execute max_retries parse api today now keyword model_id
          run_id st).state.circuit_breaker = st.circuit_breaker ∧
       (ModelExecutor.execute max_retries parse api today now keyword model_id
          run_id st).state.stats = st.stats ∧
       (ModelExecutor.execute max_retries parse api today now keyword model_id
          run_id st).state.cost_tracker =
         (st.cost_tracker.check_cost_limit today
           (estimate_cost model_id (build_prompt keyword))).2) := by
  intro max_retries parse api today now keyword model_id run_id st h
  refine ⟨?_, ?_, ?_, ?_, ?_, ?_, ?_⟩ <;> simp [ModelExecutor.execute, h]

/-- C8 counterexample: the claim's "no cost-tracker state is updated" is
false — on a failing pre-check that crosses a day boundary, `execute`
returns with the tracker's day total and last-reset day changed (by the
pre-check's lazy reset). -/
theorem execute_cost_precheck_counterexample :
    ((ModelExecutor.execute 3 (fun _ => none) (fun _ => Except.error "boom")
        1 0 "k" "m" "r" dayRolloverState).output.status = "failed") ∧
    ((ModelExecutor.execute 3 (fun _ => none) (fun _ => Except.error "boom")
        1 0 "k" "m" "r" dayRolloverState).state.cost_tracker ≠
      dayRolloverState.cost_tracker) := by
  have h := dayRollover_check_false
  constructor
  · simp [ModelExecutor.execute, h.1]
  · intro heq
    have h2 : (ModelExecutor.execute 3 (fun _ => none)
        (fun _ => Except.error "boom") 1 0 "k" "m" "r"
        dayRolloverState).state.cost_tracker =
        (dayRolloverState.cost_tracker.check_cost_limit 1
          (estimate_cost "m" (build_prompt "k"))).2 := by
      simp [ModelExecutor.execute, h.1]
    rw [h2] at heq
    have h3 := congrArg CostTracker.last_reset heq
    rw [h.2] at h3
    simp [dayRolloverState] at h3

/-- C8 witness: `execute_cost_precheck_amended` applied to the concrete
day-rollover state, its pre-check hypothesis discharged by
`dayRollover_check_false`. -/
theorem execute_cost_precheck_amended_witness :
    ((ModelExecutor.execute 3 (fun _ => none) (fun _ => Except.error "boom")
        1 0 "k" "m" "r" dayRolloverState).output.error_message
      = some "Cost limit exceeded") ∧
    ((ModelExecutor.execute 3 (fun _ => none) (fun _ => Except.error "boom")
        1 0 "k" "m" "r" dayRolloverState).api_calls = 0) := by
  have h := execute_cost_precheck_amended 3 (fun _ => none)
    (fun _ => Except.error "boom") 1 0 "k" "m" "r" dayRolloverState
    dayRollover_check_false.1
  exact ⟨h.2.1, h.2.2.1⟩

/-- C10 witness: `execute_status_total` applied with a single retry and a
provider that always errors. -/
theorem execute_status_total_witness :
    (ModelExecutor.execute 1 (fun _ => none) (fun _ => Except.error "boom")
        0 0 "kw" "m2" "r2" dayRolloverState).output.status = "completed" ∨
    (ModelExecutor.execute 1 (fun _ => none) (fun _ => Except.error "boom")
        0 0 "kw" "m2" "r2" dayRolloverState).output.status = "failed" :=
  execute_status_total 1 (fun _ => none) (fun _ => Except.error "boom")
    0 0 "kw" "m2" "r2" dayRolloverState (by omega)
